import Mathlib

/-!
Verification of the geospatial extraction and risk-assessment core of the
maritime-warning monitor (`n8n_msa_monitor.py`).

The development shallowly embeds, from the source:
* `CoordinateExtractor` (regex grammars, `_convert_to_decimal`,
  `_validate_coordinate`, `extract_coordinates`) over exact rationals;
* `CoordinateValidatorExtended` (`haversine_distance`, `calculate_bearing`,
  `cluster_nearby_coordinates`) over the reals;
* `GeofenceDetector` (`detect_zone_threat`, with the external Shapely polygon
  computations abstracted as an oracle that can fail, mirroring the
  `try/except` structure of the source);
* `VesselRiskAssessment.assess_vessel_threat`.

Python floats are modelled as exact rationals (parser) or reals (geodesy);
`float('inf')` is modelled as `none` of an `Option` carrying the finite values;
Python `round(x, n)` (round-half-to-even) is modelled exactly.
-/

namespace MSA

/-! ## Rational arithmetic helpers -/

/-- Round to the nearest integer, ties to even: Python's `round` on an exact value. -/
def rintHE (x : ℚ) : ℤ :=
  if Int.fract x < 1/2 then ⌊x⌋
  else if 1/2 < Int.fract x then ⌊x⌋ + 1
  else if ⌊x⌋ % 2 = 0 then ⌊x⌋ else ⌊x⌋ + 1

/-- Python `round(x, n)` on an exact rational. -/
def pyRound (n : ℕ) (x : ℚ) : ℚ := (rintHE (x * 10 ^ n) : ℚ) / 10 ^ n

/-! ## Backtracking regex matcher

Each of the source's five `re` patterns is a sequence of character classes,
bounded repetitions (`{1,3}`, `{1,2}`), greedy stars over single-character
classes, and an optional dot.  We model a pattern as a matcher that returns
every parse at the current position, in exactly the order a backtracking regex
engine visits them (greedy: longest consumption first, most recent choice
point backtracked first); the engine's match is the head of that list. -/

def PM (α : Type) : Type := List Char → List (α × List Char)

instance : Monad PM where
  pure a := fun s => [(a, s)]
  bind m f := fun s => (m s).flatMap fun p => f p.1 p.2

/-- Match one character of a class. -/
def pCls (p : Char → Bool) : PM Char := fun s =>
  match s with
  | [] => []
  | c :: r => if p c then [(c, r)] else []

/-- `X*` for a single-character class `X`, greedy (longest first). -/
def pStar (p : Char → Bool) : List Char → List (List Char × List Char)
  | [] => [([], [])]
  | c :: r =>
    if p c then ((pStar p r).map fun q => (c :: q.1, q.2)) ++ [([], c :: r)]
    else [([], c :: r)]

/-- `X{0,n}`, greedy. -/
def pUpTo (p : Char → Bool) : ℕ → List Char → List (List Char × List Char)
  | 0, s => [([], s)]
  | _ + 1, [] => [([], [])]
  | n + 1, c :: r =>
    if p c then ((pUpTo p n r).map fun q => (c :: q.1, q.2)) ++ [([], c :: r)]
    else [([], c :: r)]

/-- `X{lo,hi}`, greedy. -/
def pRep (p : Char → Bool) (lo hi : ℕ) : PM (List Char) := fun s =>
  (pUpTo p hi s).filter fun q => lo ≤ q.1.length

/-- `X?`, greedy. -/
def pOpt (p : Char → Bool) : PM (List Char) := fun s =>
  match s with
  | [] => [([], [])]
  | c :: r => if p c then [([c], r), ([], c :: r)] else [([], c :: r)]

/-- ASCII apostrophe and double quote (written via code points). -/
def aposCh : Char := Char.ofNat 39

def dquoteCh : Char := Char.ofNat 34

def isDigitCh (c : Char) : Bool := c.isDigit

/-- `[°\-\s]` -/
def sepDeg (c : Char) : Bool := c == '°' || c == '-' || c.isWhitespace

/-- `[°\s]` -/
def sepDegNoDash (c : Char) : Bool := c == '°' || c.isWhitespace

/-- `[′'\-\s]` -/
def sepMin (c : Char) : Bool := c == '′' || c == aposCh || c == '-' || c.isWhitespace

/-- `[′'\s]` -/
def sepMinNoDash (c : Char) : Bool := c == '′' || c == aposCh || c.isWhitespace

/-- `[″"\s]` -/
def sepSec (c : Char) : Bool := c == '″' || c == dquoteCh || c.isWhitespace

/-- `[,，\s]` -/
def sepComma (c : Char) : Bool := c == ',' || c == '，' || c.isWhitespace

/-- `[NSns]` -/
def isNS (c : Char) : Bool := c == 'N' || c == 'S' || c == 'n' || c == 's'

/-- `[EWew]` -/
def isEW (c : Char) : Bool := c == 'E' || c == 'W' || c == 'e' || c == 'w'

/-- `(\d{1,m}\.?\d*)` — a numeric capture with optional decimal fraction. -/
def pNum (dmax : ℕ) : PM (List Char) := do
  let d ← pRep isDigitCh 1 dmax
  let dot ← pOpt (fun c => c == '.')
  let fr ← fun s => pStar isDigitCh s
  pure (d ++ dot ++ fr)

/-- Captures of `pattern_dm_decimal` and `pattern_dm`. -/
structure DMCaps where
  lat_deg : List Char
  lat_min : List Char
  lat_dir : Char
  lon_deg : List Char
  lon_min : List Char
  lon_dir : Char
deriving DecidableEq

/-- Captures of `pattern_dms`. -/
structure DMSCaps where
  lat_deg : List Char
  lat_min : List Char
  lat_sec : List Char
  lat_dir : Char
  lon_deg : List Char
  lon_min : List Char
  lon_sec : List Char
  lon_dir : Char
deriving DecidableEq

/-- Captures of `pattern_decimal`. -/
structure DecCaps where
  lat : List Char
  lat_dir : Char
  lon : List Char
  lon_dir : Char
deriving DecidableEq

/-- Captures of `pattern_chinese`. -/
structure ChnCaps where
  lat_deg : List Char
  lat_min : List Char
  lon_deg : List Char
  lon_min : List Char
deriving DecidableEq

/-- Grammar 1, `pattern_dm_decimal`:
`(\d{1,3})[°\-\s]*(\d{1,2}\.?\d*)[′'\-\s]*([NSns])\s*[,，\s]*`
`(\d{1,3})[°\-\s]*(\d{1,2}\.?\d*)[′'\-\s]*([EWew])` -/
def pattern_dm_decimal : PM DMCaps := do
  let latd ← pRep isDigitCh 1 3
  let _ ← fun s => pStar sepDeg s
  let latm ← pNum 2
  let _ ← fun s => pStar sepMin s
  let latdir ← pCls isNS
  let _ ← fun s => pStar Char.isWhitespace s
  let _ ← fun s => pStar sepComma s
  let lond ← pRep isDigitCh 1 3
  let _ ← fun s => pStar sepDeg s
  let lonm ← pNum 2
  let _ ← fun s => pStar sepMin s
  let londir ← pCls isEW
  pure ⟨latd, latm, latdir, lond, lonm, londir⟩

/-- Grammar 2, `pattern_dms`:
`(\d{1,3})[°\s]*(\d{1,2})[′'\s]*(\d{1,2}\.?\d*)[″"\s]*([NSns])\s*[,，\s]*`
`(\d{1,3})[°\s]*(\d{1,2})[′'\s]*(\d{1,2}\.?\d*)[″"\s]*([EWew])` -/
def pattern_dms : PM DMSCaps := do
  let latd ← pRep isDigitCh 1 3
  let _ ← fun s => pStar sepDegNoDash s
  let latm ← pRep isDigitCh 1 2
  let _ ← fun s => pStar sepMinNoDash s
  let lats ← pNum 2
  let _ ← fun s => pStar sepSec s
  let latdir ← pCls isNS
  let _ ← fun s => pStar Char.isWhitespace s
  let _ ← fun s => pStar sepComma s
  let lond ← pRep isDigitCh 1 3
  let _ ← fun s => pStar sepDegNoDash s
  let lonm ← pRep isDigitCh 1 2
  let _ ← fun s => pStar sepMinNoDash s
  let lons ← pNum 2
  let _ ← fun s => pStar sepSec s
  let londir ← pCls isEW
  pure ⟨latd, latm, lats, latdir, lond, lonm, lons, londir⟩

/-- Grammar 3, `pattern_dm`:
`(\d{1,3})[°\s]*(\d{1,2})[′'\s]*([NSns])\s*[,，\s]*`
`(\d{1,3})[°\s]*(\d{1,2})[′'\s]*([EWew])` -/
def pattern_dm : PM DMCaps := do
  let latd ← pRep isDigitCh 1 3
  let _ ← fun s => pStar sepDegNoDash s
  let latm ← pRep isDigitCh 1 2
  let _ ← fun s => pStar sepMinNoDash s
  let latdir ← pCls isNS
  let _ ← fun s => pStar Char.isWhitespace s
  let _ ← fun s => pStar sepComma s
  let lond ← pRep isDigitCh 1 3
  let _ ← fun s => pStar sepDegNoDash s
  let lonm ← pRep isDigitCh 1 2
  let _ ← fun s => pStar sepMinNoDash s
  let londir ← pCls isEW
  pure ⟨latd, latm, latdir, lond, lonm, londir⟩

/-- Grammar 4, `pattern_decimal`:
`(\d{1,3}\.?\d*)[°\s]*([NSns])\s*[,，\s]*(\d{1,3}\.?\d*)[°\s]*([EWew])` -/
def pattern_decimal : PM DecCaps := do
  let lat ← pNum 3
  let _ ← fun s => pStar sepDegNoDash s
  let latdir ← pCls isNS
  let _ ← fun s => pStar Char.isWhitespace s
  let _ ← fun s => pStar sepComma s
  let lon ← pNum 3
  let _ ← fun s => pStar sepDegNoDash s
  let londir ← pCls isEW
  pure ⟨lat, latdir, lon, londir⟩

/-- Grammar 5, `pattern_chinese`:
`[北南]緯\s*(\d{1,3})\s*度\s*(\d{1,2}\.?\d*)\s*分\s*`
`[東西]經\s*(\d{1,3})\s*度\s*(\d{1,2}\.?\d*)\s*分` -/
def pattern_chinese : PM ChnCaps := do
  let _ ← pCls (fun c => c == '北' || c == '南')
  let _ ← pCls (fun c => c == '緯')
  let _ ← fun s => pStar Char.isWhitespace s
  let latd ← pRep isDigitCh 1 3
  let _ ← fun s => pStar Char.isWhitespace s
  let _ ← pCls (fun c => c == '度')
  let _ ← fun s => pStar Char.isWhitespace s
  let latm ← pNum 2
  let _ ← fun s => pStar Char.isWhitespace s
  let _ ← pCls (fun c => c == '分')
  let _ ← fun s => pStar Char.isWhitespace s
  let _ ← pCls (fun c => c == '東' || c == '西')
  let _ ← pCls (fun c => c == '經')
  let _ ← fun s => pStar Char.isWhitespace s
  let lond ← pRep isDigitCh 1 3
  let _ ← fun s => pStar Char.isWhitespace s
  let _ ← pCls (fun c => c == '度')
  let _ ← fun s => pStar Char.isWhitespace s
  let lonm ← pNum 2
  let _ ← fun s => pStar Char.isWhitespace s
  let _ ← pCls (fun c => c == '分')
  pure ⟨latd, latm, lond, lonm⟩

/-- The scanning engine of `re.findall`: leftmost matches, non-overlapping,
resuming at each match's end.  None of the source's patterns can match the
empty string (each requires digits and a hemisphere letter), so the fuel
`length + 1` never runs out. -/
def scanAux (pat : PM α) : ℕ → List Char → List α
  | 0, _ => []
  | _ + 1, [] => []
  | fuel + 1, c :: r =>
    match (pat (c :: r)).head? with
    | some q => q.1 :: scanAux pat fuel q.2
    | none => scanAux pat fuel r

/-- `pattern.findall(s)`. -/
def findall (pat : PM α) (s : List Char) : List α := scanAux pat (s.length + 1) s

/-! ## `CoordinateExtractor` -/

def digitsToNat (ds : List Char) : ℕ :=
  ds.foldl (fun n c => 10 * n + (c.toNat - 48)) 0

/-- `float(s)` on a capture of shape `digits ['.' digits]`, exactly. -/
def parseFloat (ds : List Char) : ℚ :=
  let ip := ds.takeWhile fun c => !(c == '.')
  let fp := (ds.dropWhile fun c => !(c == '.')).drop 1
  (digitsToNat ip : ℚ) + (digitsToNat fp : ℚ) / 10 ^ fp.length

/-- `CoordinateExtractor._convert_to_decimal` (the string captures already
parsed to exact rationals; conversion of a well-formed capture cannot fail). -/
def _convert_to_decimal (degrees minutes seconds : ℚ) (direction : Char) : ℚ :=
  let decimal := degrees + minutes / 60 + seconds / 3600
  let decimal :=
    if direction.toUpper == 'S' || direction.toUpper == 'W' then -decimal else decimal
  pyRound 6 decimal

/-- `CoordinateExtractor._validate_coordinate`: the hardcoded Asia-Pacific
plausibility box (lat in [-60, 60], lon in [60, 180]), with a second branch
shifting negative longitudes by 360 (no latitude check on that branch). -/
def _validate_coordinate (lat lon : ℚ) : Bool :=
  if -60 ≤ lat ∧ lat ≤ 60 ∧ 60 ≤ lon ∧ lon ≤ 180 then true
  else if -180 ≤ lon ∧ lon < 0 then
    (if 60 ≤ 360 + lon ∧ 360 + lon ≤ 180 then true else false)
  else false

/-- `text.replace('，', ',').replace('。', '.')`, then to characters. -/
def preprocess (text : String) : List Char :=
  text.toList.map fun c => if c == '，' then ',' else if c == '。' then '.' else c

def convDM (m : DMCaps) : ℚ × ℚ :=
  (_convert_to_decimal (parseFloat m.lat_deg) (parseFloat m.lat_min) 0 m.lat_dir,
   _convert_to_decimal (parseFloat m.lon_deg) (parseFloat m.lon_min) 0 m.lon_dir)

def convDMS (m : DMSCaps) : ℚ × ℚ :=
  (_convert_to_decimal (parseFloat m.lat_deg) (parseFloat m.lat_min)
     (parseFloat m.lat_sec) m.lat_dir,
   _convert_to_decimal (parseFloat m.lon_deg) (parseFloat m.lon_min)
     (parseFloat m.lon_sec) m.lon_dir)

def convDec (m : DecCaps) : ℚ × ℚ :=
  (_convert_to_decimal (parseFloat m.lat) 0 0 m.lat_dir,
   _convert_to_decimal (parseFloat m.lon) 0 0 m.lon_dir)

/-- The Chinese grammar always converts with hemisphere `N`/`E` (the matched
`南`/`西` characters are not captured by the source). -/
def convChn (m : ChnCaps) : ℚ × ℚ :=
  (_convert_to_decimal (parseFloat m.lat_deg) (parseFloat m.lat_min) 0 'N',
   _convert_to_decimal (parseFloat m.lon_deg) (parseFloat m.lon_min) 0 'E')

/-- One iteration of a per-grammar loop body: validate, then append unless the
exact pair is already present (`if coord not in coordinates`). -/
def stepMatch (acc : List (ℚ × ℚ)) (c : ℚ × ℚ) : List (ℚ × ℚ) :=
  if _validate_coordinate c.1 c.2 then
    (if c ∈ acc then acc else acc ++ [c])
  else acc

def matches1 (t : List Char) : List (ℚ × ℚ) := (findall pattern_dm_decimal t).map convDM

def matches2 (t : List Char) : List (ℚ × ℚ) := (findall pattern_dms t).map convDMS

def matches3 (t : List Char) : List (ℚ × ℚ) := (findall pattern_dm t).map convDM

def matches4 (t : List Char) : List (ℚ × ℚ) := (findall pattern_decimal t).map convDec

def matches5 (t : List Char) : List (ℚ × ℚ) := (findall pattern_chinese t).map convChn

/-- `CoordinateExtractor.extract_coordinates`: five grammar passes in priority
order, each appending validated, not-yet-seen coordinates. -/
def extract_coordinates (text : String) : List (ℚ × ℚ) :=
  if text == "" then []
  else
    let t := preprocess text
    let acc := (matches1 t).foldl stepMatch []
    let acc := (matches2 t).foldl stepMatch acc
    let acc := (matches3 t).foldl stepMatch acc
    let acc := (matches4 t).foldl stepMatch acc
    (matches5 t).foldl stepMatch acc

/-! ## `CoordinateValidatorExtended`: geodesy over the reals

Python's `math` floating-point functions are modelled by the corresponding
exact real functions. -/

/-- `math.radians` -/
noncomputable def radians (x : ℝ) : ℝ := x * Real.pi / 180

/-- `math.degrees` -/
noncomputable def degreesR (x : ℝ) : ℝ := x * 180 / Real.pi

/-- `CoordinateValidatorExtended.haversine_distance` (coordinates `(lat, lon)`). -/
noncomputable def haversine_distance (c1 c2 : ℝ × ℝ) : ℝ :=
  let dlat := radians (c2.1 - c1.1)
  let dlon := radians (c2.2 - c1.2)
  let a := Real.sin (dlat / 2) ^ 2 +
    Real.cos (radians c1.1) * Real.cos (radians c2.1) * Real.sin (dlon / 2) ^ 2
  let c := 2 * Real.arcsin (Real.sqrt a)
  6371 * c

/-- `math.atan2` (piecewise, as the C library defines it on finite inputs;
`atan2(0, 0) = 0`). -/
noncomputable def atan2 (y x : ℝ) : ℝ :=
  if 0 < x then Real.arctan (y / x)
  else if x < 0 ∧ 0 ≤ y then Real.arctan (y / x) + Real.pi
  else if x < 0 then Real.arctan (y / x) - Real.pi
  else if 0 < y then Real.pi / 2
  else if y < 0 then -(Real.pi / 2)
  else 0

/-- Python `x % m` on reals (`m ≠ 0`): `x - m * ⌊x / m⌋`. -/
noncomputable def pymod (x m : ℝ) : ℝ := x - m * ⌊x / m⌋

/-- `CoordinateValidatorExtended.calculate_bearing`: forward azimuth from
`c1` to `c2`, `(bearing + 360) % 360`. -/
noncomputable def calculate_bearing (c1 c2 : ℝ × ℝ) : ℝ :=
  let dlon := radians (c2.2 - c1.2)
  let y := Real.sin dlon * Real.cos (radians c2.1)
  let x := Real.cos (radians c1.1) * Real.sin (radians c2.1) -
    Real.sin (radians c1.1) * Real.cos (radians c2.1) * Real.cos dlon
  let bearing := degreesR (atan2 y x)
  pymod (bearing + 360) 360

/-! ## `CoordinateValidatorExtended.cluster_nearby_coordinates`

The source's `float('inf')` initial minimum is modelled by `none`;
`min(inf, d) = d` for every finite `d`. -/

/-- `min_dist` of the double loop over the members of two clusters:
fold of `min` over all pairwise haversine distances, starting from infinity. -/
noncomputable def pairMin (xs ys : List (ℝ × ℝ)) : Option ℝ :=
  (xs.flatMap fun c1 => ys.map fun c2 => haversine_distance c1 c2).foldl
    (fun m d => some (match m with | none => d | some x => min x d)) none

/-- `m < t` where `m` may be infinite (`none`). -/
def oLt (m : Option ℝ) (t : ℝ) : Prop :=
  match m with
  | none => False
  | some x => x < t

section ClusterDefs

attribute [local instance] Classical.propDecidable

/-- Inner loop of a clustering pass: grow `acc` (`merged_cluster`) through the
not-yet-used clusters, merging every cluster whose minimum distance to the
current `acc` is below the threshold; returns the grown cluster, the
clusters left for later iterations (in order), and whether anything merged. -/
noncomputable def mergeOne (t : ℝ) :
    List (ℝ × ℝ) → List (List (ℝ × ℝ)) → List (ℝ × ℝ) × List (List (ℝ × ℝ)) × Bool
  | acc, [] => (acc, [], false)
  | acc, c :: rest =>
    if oLt (pairMin acc c) t then
      let r := mergeOne t (acc ++ c) rest
      (r.1, r.2.1, true)
    else
      let r := mergeOne t acc rest
      (r.1, c :: r.2.1, r.2.2)

/-- One full pass of the `while` loop body (the `for i` loop with its `used`
flags): returns `new_clusters` and whether this pass merged anything. -/
noncomputable def mergePass (t : ℝ) : List (List (ℝ × ℝ)) → List (List (ℝ × ℝ)) × Bool
  | [] => ([], false)
  | c :: rest =>
    let m := mergeOne t c rest
    let p := mergePass t m.2.1
    (m.1 :: p.1, m.2.2 || p.2)
termination_by cs => cs.length
decreasing_by
  have key : ∀ (cs : List (List (ℝ × ℝ))) (acc : List (ℝ × ℝ)),
      ((mergeOne t acc cs).2.1).length ≤ cs.length := by
    intro cs
    induction cs with
    | nil => intro _acc; simp [mergeOne]
    | cons d ds ih =>
      intro acc
      rw [mergeOne]
      by_cases h : oLt (pairMin acc d) t
      · rw [if_pos h]
        exact (ih (acc ++ d)).trans (Nat.le_succ _)
      · rw [if_neg h]
        simpa using ih acc
  simpa using Nat.lt_succ_of_le (key rest c)

/-- The `while changed and len(clusters) > 1` loop. -/
noncomputable def clusterLoop (t : ℝ) (clusters : List (List (ℝ × ℝ))) :
    List (List (ℝ × ℝ)) :=
  if clusters.length ≤ 1 then clusters
  else
    let p := mergePass t clusters
    if p.2 = true then clusterLoop t p.1 else p.1
termination_by clusters.length
decreasing_by
  rename_i _hlen hch
  have hone_le : ∀ (cs : List (List (ℝ × ℝ))) (acc : List (ℝ × ℝ)),
      ((mergeOne t acc cs).2.1).length ≤ cs.length := by
    intro cs
    induction cs with
    | nil => intro _acc; simp [mergeOne]
    | cons d ds ih =>
      intro acc
      rw [mergeOne]
      by_cases h : oLt (pairMin acc d) t
      · rw [if_pos h]
        exact (ih (acc ++ d)).trans (Nat.le_succ _)
      · rw [if_neg h]
        simpa using ih acc
  have hone_lt : ∀ (cs : List (List (ℝ × ℝ))) (acc : List (ℝ × ℝ)),
      (mergeOne t acc cs).2.2 = true → ((mergeOne t acc cs).2.1).length < cs.length := by
    intro cs
    induction cs with
    | nil => intro acc h; simp [mergeOne] at h
    | cons d ds ih =>
      intro acc hch2
      rw [mergeOne]
      by_cases h : oLt (pairMin acc d) t
      · rw [if_pos h]
        exact Nat.lt_succ_of_le (hone_le ds (acc ++ d))
      · rw [if_neg h]
        rw [mergeOne] at hch2
        rw [if_neg h] at hch2
        simpa using ih acc hch2
  have hpass : ∀ (n : ℕ) (cs : List (List (ℝ × ℝ))), cs.length ≤ n →
      ((mergePass t cs).1).length ≤ cs.length ∧
      ((mergePass t cs).2 = true → ((mergePass t cs).1).length < cs.length) := by
    intro n
    induction n with
    | zero =>
      intro cs hcs
      rw [List.length_eq_zero.mp (Nat.le_zero.mp hcs)]
      simp [mergePass]
    | succ n ih =>
      intro cs hcs
      cases cs with
      | nil => simp [mergePass]
      | cons c rest =>
        rw [mergePass]
        have h1 := hone_le rest c
        have h2 := ih (mergeOne t c rest).2.1 (h1.trans (Nat.lt_succ_iff.mp hcs))
        constructor
        · simpa using Nat.succ_le_succ (h2.1.trans h1)
        · intro hch2
          simp only [List.length_cons]
          simp only [Bool.or_eq_true] at hch2
          rcases hch2 with hch2 | hch2
          · exact Nat.succ_lt_succ ((h2.1.trans_lt (hone_lt rest c hch2)))
          · exact Nat.succ_lt_succ ((h2.2 hch2).trans_le h1)
  exact (hpass clusters.length clusters le_rfl).2 hch

end ClusterDefs

/-- Cluster centroid: arithmetic mean of member latitudes and longitudes. -/
noncomputable def centroid (cluster : List (ℝ × ℝ)) : ℝ × ℝ :=
  ((cluster.map Prod.fst).sum / cluster.length,
   (cluster.map Prod.snd).sum / cluster.length)

/-- `CoordinateValidatorExtended.cluster_nearby_coordinates`. -/
noncomputable def cluster_nearby_coordinates (coordinates : List (ℝ × ℝ))
    (threshold_km : ℝ) : List (ℝ × ℝ) :=
  if coordinates.isEmpty || coordinates.length == 1 then coordinates
  else (clusterLoop threshold_km (coordinates.map fun c => [c])).map centroid

/-! ## `GeofenceDetector` -/

/-- The five threat levels (`'CRITICAL' | 'HIGH' | 'MEDIUM' | 'LOW' | 'SAFE'`). -/
inductive ThreatLevel
  | CRITICAL
  | HIGH
  | MEDIUM
  | LOW
  | SAFE
deriving DecidableEq

/-- Severity rank of a threat level (for monotonicity statements). -/
def sevRank : ThreatLevel → ℕ
  | .CRITICAL => 4
  | .HIGH => 3
  | .MEDIUM => 2
  | .LOW => 1
  | .SAFE => 0

/-- `warning_data` dictionary: fields read through `.get` with a default are
`Option`s. -/
structure WarningData where
  wtype : Option String := none
  coordinates : Option (List (ℝ × ℝ)) := none
  title : Option String := none
  wid : Option ℤ := none

/-- Outcome of the external Shapely computations for one (vessel, polygon)
query, as seen through the source's `try/except` blocks: `contains` is the
result of `polygon.contains(point)` (`none` = the library raised, caught and
turned into `False`), `distDeg` the result of `point.distance(polygon)` in
degrees (`none` = the library raised, caught and turned into `float('inf')`). -/
structure PolygonOracle where
  contains : Option Bool := none
  distDeg : Option ℝ := none

/-- `GeofenceDetector.is_point_in_polygon`: `except` returns `False`. -/
def is_point_in_polygon (g : PolygonOracle) : Bool := g.contains.getD false

/-- `GeofenceDetector.point_to_polygon_distance`: degrees × 111 × cos(lat);
`except` returns `float('inf')` (modelled `none`). -/
noncomputable def point_to_polygon_distance (g : PolygonOracle) (point_lat : ℝ) :
    Option ℝ :=
  match g.distDeg with
  | some d => some (d * 111 * Real.cos (radians point_lat))
  | none => none

/-- The `threat_map` list of `(threshold, level, certainty)` rows; the last
threshold is `float('inf')` (modelled `none`). -/
noncomputable def threat_map (buffer_km : ℝ) : List (Option ℝ × ThreatLevel × ℝ) :=
  [(some (buffer_km * 0.25), .CRITICAL, 0.95),
   (some (buffer_km * 0.5), .HIGH, 0.9),
   (some buffer_km, .MEDIUM, 0.85),
   (some (buffer_km * 2), .LOW, 0.7),
   (some (buffer_km * 5), .LOW, 0.5),
   (none, .SAFE, 0.0)]

/-- `distance_km < threshold` with a possibly-infinite threshold. -/
def ltThresh (d : ℝ) : Option ℝ → Prop
  | none => True
  | some t => d < t

section GeofenceDefs

attribute [local instance] Classical.propDecidable

/-- The `for threshold, level, cert in threat_map: if distance < threshold:
break` loop (starting from the pre-initialized `('SAFE', 0.0)`). -/
noncomputable def applyThreatMap (d : ℝ) :
    List (Option ℝ × ThreatLevel × ℝ) → ThreatLevel × ℝ
  | [] => (.SAFE, 0.0)
  | (thr, lv, cert) :: rest =>
    if ltThresh d thr then (lv, cert) else applyThreatMap d rest

/-- Round-half-to-even on a real (Python `round` on an exact value). -/
noncomputable def rintHE_R (x : ℝ) : ℤ :=
  if Int.fract x < 1/2 then ⌊x⌋
  else if 1/2 < Int.fract x then ⌊x⌋ + 1
  else if ⌊x⌋ % 2 = 0 then ⌊x⌋ else ⌊x⌋ + 1

/-- Python `round(x, 2)` on a real. -/
noncomputable def round2R (x : ℝ) : ℝ := (rintHE_R (x * 100) : ℝ) / 100

/-- Result dictionary of `detect_zone_threat`.  `distance_km = none` models
`float('inf')`; `buffer_km` is `none` on the empty-coordinates early return,
whose dictionary carries no `buffer_km` key. -/
structure ThreatResult where
  threat_level : ThreatLevel
  distance_km : Option ℝ
  is_in_zone : Prop
  buffer_km : Option ℝ
  certainty : ℝ

/-- `GeofenceDetector.detect_zone_threat`. -/
noncomputable def detect_zone_threat (vessel_lat vessel_lon : ℝ) (w : WarningData)
    (g : PolygonOracle) (buffer_km : ℝ) : ThreatResult :=
  match w.coordinates.getD [] with
  | [] =>
    { threat_level := .SAFE, distance_km := none, is_in_zone := False,
      buffer_km := none, certainty := 1.0 }
  | c0 :: cs =>
    if w.wtype.getD "point" = "point" ∨ (c0 :: cs).length = 1 then
      let distance_km := haversine_distance (vessel_lat, vessel_lon) c0
      let tc := applyThreatMap distance_km (threat_map buffer_km)
      { threat_level := tc.1, distance_km := some (round2R distance_km),
        is_in_zone := distance_km < buffer_km * 0.5,
        buffer_km := some buffer_km, certainty := tc.2 }
    else
      let is_in := is_point_in_polygon g
      let dk := point_to_polygon_distance g vessel_lat
      let tc : ThreatLevel × ℝ :=
        if is_in = true then (.CRITICAL, 1.0)
        else if oLt dk (buffer_km * 0.5) then (.HIGH, 0.95)
        else if oLt dk buffer_km then (.MEDIUM, 0.9)
        else if oLt dk (buffer_km * 2) then (.LOW, 0.7)
        else (.SAFE, 0.5)
      { threat_level := tc.1, distance_km := dk.map round2R,
        is_in_zone := is_in = true, buffer_km := some buffer_km,
        certainty := tc.2 }

end GeofenceDefs

/-! ## `VesselRiskAssessment.assess_vessel_threat` -/

/-- `vessel_data` dictionary. -/
structure VesselData where
  lat : ℝ
  lon : ℝ
  speed_knots : Option ℝ := none
  draft_m : Option ℝ := none
  vtype : Option String := none
  heading : Option ℝ := none
  vname : Option String := none

/-- The `type_factors` table. -/
noncomputable def type_factors : List (String × ℝ) :=
  [("TANKER", 1.3), ("CONTAINER", 1.2), ("GENERAL", 1.0),
   ("BULK", 0.9), ("PASSENGER", 1.4), ("FISHING", 0.7)]

/-- The `threat_scores` base-score table. -/
noncomputable def threat_scores : ThreatLevel → ℝ
  | .CRITICAL => 100
  | .HIGH => 75
  | .MEDIUM => 50
  | .LOW => 25
  | .SAFE => 0

/-- Python's `needle in hay` on strings (substring containment). -/
def listContains (needle : List Char) : List Char → Bool
  | [] => needle.isEmpty
  | c :: r => needle.isPrefixOf (c :: r) || listContains needle r

def strContains (hay needle : String) : Bool := listContains needle.toList hay.toList

/-- Python `str.lower()`, character-wise (the source only lowercases warning
titles, whose CJK characters are unaffected). -/
def strToLower (s : String) : String := String.mk (s.toList.map Char.toLower)

/-- Per-warning entry appended to `nearby_threats` (the threat-assessment
dictionary extended with the keys added by `assess_vessel_threat`). -/
structure ThreatEntry where
  assessment : ThreatResult
  warning_title : String
  warning_type : String
  warning_id : ℤ
  final_score : ℝ
  bearing_to_warning : Option ℝ

section RiskDefs

attribute [local instance] Classical.propDecidable

/-- One iteration of the `for idx, warning in enumerate(warnings_data)` loop:
`none` when the warning is skipped (`threat_level == 'SAFE'`), otherwise the
appended entry together with the unrounded `final_score` that is accumulated
into `weighted_threat_score` (the stored `final_score` key is rounded to two
decimals). -/
noncomputable def perWarning (v : VesselData) (idxw : ℕ × WarningData × PolygonOracle) :
    Option (ThreatEntry × ℝ) :=
  let idx := idxw.1
  let warning := idxw.2.1
  let g := idxw.2.2
  let ta := detect_zone_threat v.lat v.lon warning g 5.0
  if ta.threat_level = .SAFE then none
  else
    let base_score := threat_scores ta.threat_level
    let distance := ta.distance_km
    let certainty := ta.certainty
    let warning_coords := warning.coordinates.getD []
    let bearingOpt : Option ℝ :=
      match warning_coords with
      | [] => none
      | c0 :: cs =>
        let warning_center := if (c0 :: cs).length > 1 then centroid (c0 :: cs) else c0
        some (calculate_bearing (v.lat, v.lon) warning_center)
    let approach_factor : ℝ :=
      match bearingOpt with
      | none => 0.5
      | some bearing_to_warning =>
        let heading_diff := |v.heading.getD 0 - bearing_to_warning|
        let heading_diff := min heading_diff (360 - heading_diff)
        max 0 (1 - heading_diff / 180)
    let warning_title := strToLower (warning.title.getD "")
    let type_multiplier : ℝ :=
      if strContains warning_title "射擊" then 1.5
      else if strContains warning_title "礙航" then 1.3
      else if strContains warning_title "颶風" || strContains warning_title "台風" then 1.2
      else 1.0
    let type_factor := (type_factors.lookup (v.vtype.getD "GENERAL")).getD 1.0
    let vessel_draft := v.draft_m.getD 0
    let draft_factor := if 0 < vessel_draft then 1 + vessel_draft / 15 else 1
    let adjusted_score := base_score * type_factor * draft_factor * type_multiplier
    let distance_penalty : ℝ :=
      match distance with
      | none => 0
      | some dkm => max 0 (1 - dkm / 20)
    let approach_bonus := approach_factor * 0.3
    let final_score := (adjusted_score * distance_penalty + approach_bonus * 50) * certainty
    some ({ assessment := ta,
            warning_title := warning.title.getD "Unknown",
            warning_type := warning.wtype.getD "point",
            warning_id := warning.wid.getD idx,
            final_score := round2R final_score,
            bearing_to_warning := bearingOpt }, final_score)

/-- The risk-profile dictionary returned by `assess_vessel_threat`.
Fields that merely echo the inputs (`vessel_position`, `vessel_speed`,
`vessel_heading`, `vessel_draft`), the fixed-string `recommendations`, and the
impure `assessment_timestamp` are omitted: no claim concerns them. -/
structure RiskProfile where
  vessel_name : String
  vessel_type : String
  overall_risk_score : ℝ
  threat_level : ThreatLevel
  action_urgency : String
  nearby_warnings : List ThreatEntry
  warning_count : ℕ
  action_required : Prop
  confidence : ℝ

/-- `VesselRiskAssessment.assess_vessel_threat`.  The warnings come paired
with the Shapely oracle describing the external geometry computations for
them against this vessel's position.  `list.sort(key=..., reverse=True)` is a
stable descending sort, modelled by `mergeSort` with the `≥`-on-scores
relation. -/
noncomputable def assess_vessel_threat (v : VesselData)
    (warnings_data : List (WarningData × PolygonOracle)) : RiskProfile :=
  let scored := (warnings_data.enum).filterMap (perWarning v)
  let nearby_threats := scored.map Prod.fst
  let weighted_threat_score := (scored.map Prod.snd).sum
  let total_weight := scored.length
  let sorted := nearby_threats.mergeSort fun a b => decide (b.final_score ≤ a.final_score)
  let overall_score : ℝ :=
    if 0 < total_weight then min 100 (weighted_threat_score / total_weight) else 0
  let lv : ThreatLevel × String :=
    if 85 ≤ overall_score then (.CRITICAL, "IMMEDIATE")
    else if 65 ≤ overall_score then (.HIGH, "URGENT")
    else if 45 ≤ overall_score then (.MEDIUM, "SOON")
    else if 25 ≤ overall_score then (.LOW, "MONITOR")
    else (.SAFE, "ROUTINE")
  { vessel_name := v.vname.getD "UNKNOWN",
    vessel_type := v.vtype.getD "GENERAL",
    overall_risk_score := round2R overall_score,
    threat_level := lv.1,
    action_urgency := lv.2,
    nearby_warnings := sorted.take 5,
    warning_count := nearby_threats.length,
    action_required := lv.1 = .CRITICAL ∨ lv.1 = .HIGH,
    confidence := round2R
      ((nearby_threats.map fun e => e.assessment.certainty).sum /
        max 1 nearby_threats.length) }

end RiskDefs

/-! ## Definitions modelled from the specification's words (for refutations)

Each of the following is written from the spec/claim text, *not* from the
source, and is compared against the source-derived definitions above. -/

/-- Modelled from the claim (C4): accept iff within the global coordinate
ranges and not the near-(0,0) sentinel (ε = 0.01, spec §3). -/
def claimed_validate (lat lon : ℚ) : Bool :=
  decide ((-90 ≤ lat ∧ lat ≤ 90 ∧ -180 ≤ lon ∧ lon ≤ 180) ∧
    ¬(|lat| < 0.01 ∧ |lon| < 0.01))

/-- Modelled from the claim (C7): the parse output as the claim describes it —
every validated match in grammar-priority then left-to-right order, duplicates
across grammars retained. -/
def claimed_parse_output (text : String) : List (ℚ × ℚ) :=
  let t := preprocess text
  (matches1 t ++ matches2 t ++ matches3 t ++ matches4 t ++ matches5 t).filter
    fun c => _validate_coordinate c.1 c.2

section ClaimedDefs

attribute [local instance] Classical.propDecidable

/-- Modelled from the claim (C2): per-hazard score
`clip₍₀,₁₀₀₎(base × vessel_type_factor × draft_factor × hazard_type_multiplier
× distance_penalty + approach_bonus)` scaled by certainty afterwards, with
`approach_bonus = 0.3 × max(0, 1 − |heading − bearing_to_hazard|/180) × 50`
(no wraparound of the heading difference). -/
noncomputable def claimed_per_hazard_score (v : VesselData) (w : WarningData)
    (g : PolygonOracle) : ℝ :=
  let ta := detect_zone_threat v.lat v.lon w g 5.0
  let base := threat_scores ta.threat_level
  let type_factor := (type_factors.lookup (v.vtype.getD "GENERAL")).getD 1.0
  let vessel_draft := v.draft_m.getD 0
  let draft_factor := if 0 < vessel_draft then 1 + vessel_draft / 15 else 1
  let warning_title := strToLower (w.title.getD "")
  let type_multiplier : ℝ :=
    if strContains warning_title "射擊" then 1.5
    else if strContains warning_title "礙航" then 1.3
    else if strContains warning_title "颶風" || strContains warning_title "台風" then 1.2
    else 1.0
  let distance_penalty : ℝ :=
    match ta.distance_km with
    | none => 0
    | some dkm => max 0 (1 - dkm / 20)
  let bearing : ℝ :=
    match w.coordinates.getD [] with
    | [] => 0
    | c0 :: cs =>
      calculate_bearing (v.lat, v.lon)
        (if (c0 :: cs).length > 1 then centroid (c0 :: cs) else c0)
  let approach_bonus := 0.3 * max 0 (1 - |v.heading.getD 0 - bearing| / 180) * 50
  min 100 (max 0
    (base * type_factor * draft_factor * type_multiplier * distance_penalty +
      approach_bonus)) * ta.certainty

end ClaimedDefs

/-! ## Concrete fixtures used by refutations and witnesses -/

/-- A deep-draft passenger vessel heading due at a gunnery warning located at
its own position. -/
noncomputable def vFix : VesselData :=
  { lat := 0, lon := 100, speed_knots := some 10, draft_m := some 15,
    vtype := some "PASSENGER", heading := some 0, vname := some "V" }

/-- A point-type gunnery warning at the fixture vessel's position. -/
noncomputable def wFix : WarningData :=
  { wtype := some "point", coordinates := some [(0, 100)],
    title := some "射擊", wid := some 7 }

/-- No polygon geometry is consulted for a point warning. -/
def gFix : PolygonOracle := {}

/-- A two-vertex "polygon" warning (Shapely rejects such a ring, so both
geometry computations raise — `gFix` records exactly that). -/
noncomputable def wPoly : WarningData :=
  { wtype := some "polygon", coordinates := some [(0, 1), (0, 2)] }

/-- A warning record carrying no geometry at all. -/
def wEmpty : WarningData := {}

end MSA

/-! # Theorems -/

namespace MSA

/-! ## Parser evaluation helpers -/

theorem parseFloat_1737 : parseFloat ['1', '7', '.', '3', '7'] = 17.37 := by
  rw [parseFloat,
    show (['1', '7', '.', '3', '7'].takeWhile fun c => !(c == '.')) = ['1', '7'] from by decide,
    show ((['1', '7', '.', '3', '7'].dropWhile fun c => !(c == '.')).drop 1) = ['3', '7'] from by
      decide,
    show digitsToNat ['1', '7'] = 17 from by decide,
    show digitsToNat ['3', '7'] = 37 from by decide]
  norm_num

theorem parseFloat_18 : parseFloat ['1', '8'] = 18 := by
  rw [parseFloat, show (['1', '8'].takeWhile fun c => !(c == '.')) = ['1', '8'] from by decide,
    show ((['1', '8'].dropWhile fun c => !(c == '.')).drop 1) = [] from by decide,
    show digitsToNat ['1', '8'] = 18 from by decide]
  norm_num [digitsToNat]

theorem parseFloat_109 : parseFloat ['1', '0', '9'] = 109 := by
  rw [parseFloat,
    show (['1', '0', '9'].takeWhile fun c => !(c == '.')) = ['1', '0', '9'] from by decide,
    show ((['1', '0', '9'].dropWhile fun c => !(c == '.')).drop 1) = [] from by decide,
    show digitsToNat ['1', '0', '9'] = 109 from by decide]
  norm_num [digitsToNat]

theorem parseFloat_2217 : parseFloat ['2', '2', '.', '1', '7'] = 22.17 := by
  rw [parseFloat,
    show (['2', '2', '.', '1', '7'].takeWhile fun c => !(c == '.')) = ['2', '2'] from by decide,
    show ((['2', '2', '.', '1', '7'].dropWhile fun c => !(c == '.')).drop 1) = ['1', '7'] from by
      decide,
    show digitsToNat ['2', '2'] = 22 from by decide,
    show digitsToNat ['1', '7'] = 17 from by decide]
  norm_num

theorem parseFloat_25 : parseFloat ['2', '5'] = 25 := by
  rw [parseFloat, show (['2', '5'].takeWhile fun c => !(c == '.')) = ['2', '5'] from by decide,
    show ((['2', '5'].dropWhile fun c => !(c == '.')).drop 1) = [] from by decide,
    show digitsToNat ['2', '5'] = 25 from by decide]
  norm_num [digitsToNat]

theorem parseFloat_30 : parseFloat ['3', '0'] = 30 := by
  rw [parseFloat, show (['3', '0'].takeWhile fun c => !(c == '.')) = ['3', '0'] from by decide,
    show ((['3', '0'].dropWhile fun c => !(c == '.')).drop 1) = [] from by decide,
    show digitsToNat ['3', '0'] = 30 from by decide]
  norm_num [digitsToNat]

theorem parseFloat_121 : parseFloat ['1', '2', '1'] = 121 := by
  rw [parseFloat,
    show (['1', '2', '1'].takeWhile fun c => !(c == '.')) = ['1', '2', '1'] from by decide,
    show ((['1', '2', '1'].dropWhile fun c => !(c == '.')).drop 1) = [] from by decide,
    show digitsToNat ['1', '2', '1'] = 121 from by decide]
  norm_num [digitsToNat]

theorem parseFloat_20 : parseFloat ['2', '0'] = 20 := by
  rw [parseFloat, show (['2', '0'].takeWhile fun c => !(c == '.')) = ['2', '0'] from by decide,
    show ((['2', '0'].dropWhile fun c => !(c == '.')).drop 1) = [] from by decide,
    show digitsToNat ['2', '0'] = 20 from by decide]
  norm_num [digitsToNat]

theorem conv_lat_C8 : _convert_to_decimal 18 17.37 0 'N' = 18.2895 := by
  rw [_convert_to_decimal, show ('N'.toUpper == 'S' || 'N'.toUpper == 'W') = false from by decide]
  norm_num [pyRound, rintHE, Int.fract]

theorem conv_lon_C8 : _convert_to_decimal 109 22.17 0 'E' = 109.3695 := by
  rw [_convert_to_decimal, show ('E'.toUpper == 'S' || 'E'.toUpper == 'W') = false from by decide]
  norm_num [pyRound, rintHE, Int.fract]

theorem conv_lat_C7 : _convert_to_decimal 25 30 0 'N' = 25.5 := by
  rw [_convert_to_decimal, show ('N'.toUpper == 'S' || 'N'.toUpper == 'W') = false from by decide]
  norm_num [pyRound, rintHE, Int.fract]

theorem conv_lon_C7 : _convert_to_decimal 121 20 0 'E' = 121333333 / 1000000 := by
  rw [_convert_to_decimal, show ('E'.toUpper == 'S' || 'E'.toUpper == 'W') = false from by decide]
  norm_num [pyRound, rintHE, Int.fract]

theorem matches1_C8 : matches1 (preprocess "18-17.37N 109-22.17E") = [(18.2895, 109.3695)] := by
  rw [matches1,
    show findall pattern_dm_decimal (preprocess "18-17.37N 109-22.17E") =
      [⟨['1', '8'], ['1', '7', '.', '3', '7'], 'N',
        ['1', '0', '9'], ['2', '2', '.', '1', '7'], 'E'⟩] from by decide,
    List.map_cons, List.map_nil]
  rw [show convDM ⟨['1', '8'], ['1', '7', '.', '3', '7'], 'N',
      ['1', '0', '9'], ['2', '2', '.', '1', '7'], 'E'⟩ =
      (_convert_to_decimal (parseFloat ['1', '8']) (parseFloat ['1', '7', '.', '3', '7']) 0 'N',
       _convert_to_decimal (parseFloat ['1', '0', '9'])
         (parseFloat ['2', '2', '.', '1', '7']) 0 'E') from rfl]
  rw [parseFloat_18, parseFloat_1737, parseFloat_109, parseFloat_2217, conv_lat_C8, conv_lon_C8]

theorem validate_C8 : _validate_coordinate 18.2895 109.3695 = true := by
  rw [_validate_coordinate, if_pos (by norm_num)]

theorem convDM_C7 : convDM ⟨['2', '5'], ['3', '0'], 'N', ['1', '2', '1'], ['2', '0'], 'E'⟩ =
    (25.5, 121333333 / 1000000) := by
  rw [show convDM ⟨['2', '5'], ['3', '0'], 'N', ['1', '2', '1'], ['2', '0'], 'E'⟩ =
      (_convert_to_decimal (parseFloat ['2', '5']) (parseFloat ['3', '0']) 0 'N',
       _convert_to_decimal (parseFloat ['1', '2', '1']) (parseFloat ['2', '0']) 0 'E') from rfl]
  rw [parseFloat_25, parseFloat_30, parseFloat_121, parseFloat_20, conv_lat_C7, conv_lon_C7]

theorem matches1_C7 : matches1 (preprocess "25°30'N 121°20'E") =
    [(25.5, 121333333 / 1000000)] := by
  rw [matches1,
    show findall pattern_dm_decimal (preprocess "25°30'N 121°20'E") =
      [⟨['2', '5'], ['3', '0'], 'N', ['1', '2', '1'], ['2', '0'], 'E'⟩] from by decide,
    List.map_cons, List.map_nil, convDM_C7]

theorem matches3_C7 : matches3 (preprocess "25°30'N 121°20'E") =
    [(25.5, 121333333 / 1000000)] := by
  rw [matches3,
    show findall pattern_dm (preprocess "25°30'N 121°20'E") =
      [⟨['2', '5'], ['3', '0'], 'N', ['1', '2', '1'], ['2', '0'], 'E'⟩] from by decide,
    List.map_cons, List.map_nil, convDM_C7]

theorem validate_C7 : _validate_coordinate 25.5 (121333333 / 1000000) = true := by
  rw [_validate_coordinate, if_pos (by norm_num)]

theorem extract_C7 : extract_coordinates "25°30'N 121°20'E" = [(25.5, 121333333 / 1000000)] := by
  rw [extract_coordinates, if_neg (by decide : ¬ (("25°30'N 121°20'E" == "") = true))]
  simp only [show matches2 (preprocess "25°30'N 121°20'E") = [] from by decide,
    show matches4 (preprocess "25°30'N 121°20'E") = [] from by decide,
    show matches5 (preprocess "25°30'N 121°20'E") = [] from by decide,
    matches1_C7, matches3_C7, List.foldl_cons, List.foldl_nil]
  have hstep1 : stepMatch [] (25.5, 121333333 / 1000000) = [(25.5, 121333333 / 1000000)] := by
    rw [stepMatch, if_pos validate_C7]
    simp
  have hstep2 : stepMatch [(25.5, 121333333 / 1000000)] (25.5, 121333333 / 1000000) =
      [(25.5, 121333333 / 1000000)] := by
    rw [stepMatch, if_pos validate_C7]
    simp
  rw [hstep1, hstep2]

theorem claimed_C7 : claimed_parse_output "25°30'N 121°20'E" =
    [(25.5, 121333333 / 1000000), (25.5, 121333333 / 1000000)] := by
  rw [claimed_parse_output]
  simp only [show matches2 (preprocess "25°30'N 121°20'E") = [] from by decide,
    show matches4 (preprocess "25°30'N 121°20'E") = [] from by decide,
    show matches5 (preprocess "25°30'N 121°20'E") = [] from by decide,
    matches1_C7, matches3_C7, List.append_nil, List.nil_append, List.cons_append,
    List.singleton_append]
  rw [List.filter_cons_of_pos (by simpa using validate_C7),
    List.filter_cons_of_pos (by simpa using validate_C7), List.filter_nil]

/-! ## Parser claims -/

/-- C8: parsing the exact text `"18-17.37N 109-22.17E"` and validating yields
exactly one coordinate, `(18.2895, 109.3695)`, converted via `deg + min/60`
with positive sign for hemispheres `N` and `E`. -/
theorem C8_end_to_end_parse :
    extract_coordinates "18-17.37N 109-22.17E" = [(18.2895, 109.3695)] := by
  rw [extract_coordinates, if_neg (by decide : ¬ (("18-17.37N 109-22.17E" == "") = true))]
  simp only [show matches2 (preprocess "18-17.37N 109-22.17E") = [] from by decide,
    show matches3 (preprocess "18-17.37N 109-22.17E") = [] from by decide,
    show matches4 (preprocess "18-17.37N 109-22.17E") = [] from by decide,
    show matches5 (preprocess "18-17.37N 109-22.17E") = [] from by decide,
    matches1_C8, List.foldl_cons, List.foldl_nil]
  rw [stepMatch, if_pos validate_C8]
  simp

/-- C7 counterexample: on `"25°30'N 121°20'E"` both grammar 1 and grammar 3
produce the same coordinate, and `extract_coordinates` keeps only one copy —
the claim that duplicates are not removed at parse time is false. -/
theorem C7_parse_counterexample :
    extract_coordinates "25°30'N 121°20'E" ≠ claimed_parse_output "25°30'N 121°20'E" ∧
    claimed_parse_output "25°30'N 121°20'E" =
      [(25.5, 121333333 / 1000000), (25.5, 121333333 / 1000000)] ∧
    extract_coordinates "25°30'N 121°20'E" = [(25.5, 121333333 / 1000000)] := by
  refine ⟨?_, claimed_C7, extract_C7⟩
  rw [extract_C7, claimed_C7]
  intro h
  exact absurd (congrArg List.length h) (by simp)

/-- C7 (amended): the output follows grammar-priority order then left-to-right
match order — it equals a single fold over the concatenated per-grammar match
lists — but each validated coordinate is appended only if not already present:
exact duplicates across grammars are removed at parse time, keeping the first
occurrence. -/
theorem C7_parse_order_dedup_amended (text : String) :
    extract_coordinates text =
      (matches1 (preprocess text) ++ matches2 (preprocess text) ++ matches3 (preprocess text)
        ++ matches4 (preprocess text) ++ matches5 (preprocess text)).foldl stepMatch [] := by
  rw [extract_coordinates]
  by_cases h : (text == "") = true
  · rw [if_pos h]
    have : text = "" := by simpa using h
    subst this
    decide
  · rw [if_neg h]
    simp only [List.foldl_append]

/-- C4 counterexample: `(10, 10)` is inside the claim's global range and is not
the near-(0,0) sentinel, yet `_validate_coordinate` rejects it (its hardcoded
Asia-Pacific box requires `60 ≤ lon ≤ 180`). -/
theorem C4_validate_counterexample :
    claimed_validate 10 10 = true ∧ _validate_coordinate 10 10 = false := by
  constructor
  · rw [claimed_validate, decide_eq_true_eq]
    norm_num
  · rw [_validate_coordinate, if_neg (by norm_num), if_neg (by norm_num)]

/-- C4 (amended): coordinate validation accepts exactly the hardcoded
Asia-Pacific box `-60 ≤ lat ≤ 60 ∧ 60 ≤ lon ≤ 180`, plus any point with
`lon = -180` (the negative-longitude wrap branch, which performs no latitude
check); the regional box is always on, and there is no near-(0,0) sentinel in
this function.  The embedding is a total function, so validation never
raises. -/
theorem C4_validate_amended (lat lon : ℚ) :
    _validate_coordinate lat lon = true ↔
      ((-60 ≤ lat ∧ lat ≤ 60 ∧ 60 ≤ lon ∧ lon ≤ 180) ∨ lon = -180) := by
  rw [_validate_coordinate]
  split_ifs with h1 h2 h3
  · simp [h1]
  · simp only [true_iff]
    right
    linarith [h2.1, h3.2]
  · simp only [Bool.false_eq_true, false_iff]
    rintro (hbox | hl)
    · exact h1 hbox
    · exact absurd (by rw [hl]; norm_num : 60 ≤ 360 + lon ∧ 360 + lon ≤ 180) h3
  · simp only [Bool.false_eq_true, false_iff]
    rintro (hbox | hl)
    · exact h1 hbox
    · exact absurd (by rw [hl]; norm_num : -180 ≤ lon ∧ lon < 0) h2

end MSA

namespace MSA

/-! ## Clustering: evaluation helpers -/

theorem hav_equator (l1 l2 : ℝ) :
    haversine_distance (0, l1) (0, l2) =
      6371 * (2 * Real.arcsin |Real.sin ((l2 - l1) * Real.pi / 180 / 2)|) := by
  simp only [haversine_distance, radians]
  rw [show ((0:ℝ) - 0) * Real.pi / 180 / 2 = 0 by ring,
    show ((0:ℝ)) * Real.pi / 180 = 0 by ring, Real.sin_zero, Real.cos_zero]
  rw [show (0:ℝ) ^ 2 + 1 * 1 * Real.sin ((l2 - l1) * Real.pi / 180 / 2) ^ 2 =
    Real.sin ((l2 - l1) * Real.pi / 180 / 2) ^ 2 by ring]
  rw [Real.sqrt_sq_eq_abs]

/-- The two antimeridian-straddling points are 22.24 km apart (the haversine
formula wraps the longitude difference correctly). -/
theorem hav_P1P2 :
    haversine_distance ((0:ℝ), 179.9) (0, -179.9) = 6371 * Real.pi / 900 := by
  rw [hav_equator]
  rw [show ((-179.9:ℝ) - 179.9) * Real.pi / 180 / 2 = -(Real.pi - Real.pi / 1800) by ring]
  rw [Real.sin_neg, Real.sin_pi_sub, abs_neg,
    abs_of_nonneg (Real.sin_nonneg_of_nonneg_of_le_pi (by positivity)
      (by linarith [Real.pi_pos]))]
  rw [Real.arcsin_sin (by linarith [Real.pi_pos]) (by linarith [Real.pi_pos])]
  ring

theorem hav_P1R :
    haversine_distance ((0:ℝ), 179.9) (0, 0.1) = 6371 * (899 * Real.pi) / 900 := by
  rw [hav_equator]
  rw [show ((0.1:ℝ) - 179.9) * Real.pi / 180 / 2 = -(899 * Real.pi / 1800) by ring]
  rw [Real.sin_neg, abs_neg,
    abs_of_nonneg (Real.sin_nonneg_of_nonneg_of_le_pi (by positivity)
      (by linarith [Real.pi_pos]))]
  rw [Real.arcsin_sin (by linarith [Real.pi_pos]) (by linarith [Real.pi_pos])]
  ring

theorem hav_P2R :
    haversine_distance ((0:ℝ), -179.9) (0, 0.1) = 6371 * Real.pi := by
  rw [hav_equator]
  rw [show ((0.1:ℝ) - -179.9) * Real.pi / 180 / 2 = Real.pi / 2 by ring]
  rw [Real.sin_pi_div_two, abs_one, Real.arcsin_one]
  ring

theorem hav_OR :
    haversine_distance ((0:ℝ), 0) (0, 0.1) = 6371 * Real.pi / 1800 := by
  rw [hav_equator]
  rw [show ((0.1:ℝ) - 0) * Real.pi / 180 / 2 = Real.pi / 3600 by ring]
  rw [abs_of_nonneg (Real.sin_nonneg_of_nonneg_of_le_pi (by positivity)
      (by linarith [Real.pi_pos]))]
  rw [Real.arcsin_sin (by linarith [Real.pi_pos]) (by linarith [Real.pi_pos])]
  ring

theorem hav_P1P2_lt : haversine_distance ((0:ℝ), 179.9) (0, -179.9) < 30 := by
  rw [hav_P1P2]
  nlinarith [Real.pi_lt_d2]

theorem hav_P1R_ge : ¬ haversine_distance ((0:ℝ), 179.9) (0, 0.1) < 30 := by
  rw [hav_P1R]
  push_neg
  nlinarith [Real.pi_gt_three]

theorem hav_P2R_ge : ¬ haversine_distance ((0:ℝ), -179.9) (0, 0.1) < 30 := by
  rw [hav_P2R]
  push_neg
  nlinarith [Real.pi_gt_three]

theorem hav_OR_lt : haversine_distance ((0:ℝ), 0) (0, 0.1) < 30 := by
  rw [hav_OR]
  nlinarith [Real.pi_lt_d2]

theorem pairMin_single (a b : ℝ × ℝ) :
    pairMin [a] [b] = some (haversine_distance a b) := by
  simp [pairMin]

theorem pairMin_pair (a b c : ℝ × ℝ) :
    pairMin [a, b] [c] = some (min (haversine_distance a c) (haversine_distance b c)) := by
  simp [pairMin]

theorem mergeOne_nil (t : ℝ) (acc : List (ℝ × ℝ)) : mergeOne t acc [] = (acc, [], false) := by
  rw [mergeOne]

theorem mergeOne_cons_merge {t : ℝ} {acc c : List (ℝ × ℝ)} {rest : List (List (ℝ × ℝ))}
    (h : oLt (pairMin acc c) t) :
    mergeOne t acc (c :: rest) =
      ((mergeOne t (acc ++ c) rest).1, (mergeOne t (acc ++ c) rest).2.1, true) := by
  rw [mergeOne, if_pos h]

theorem mergeOne_cons_skip {t : ℝ} {acc c : List (ℝ × ℝ)} {rest : List (List (ℝ × ℝ))}
    (h : ¬ oLt (pairMin acc c) t) :
    mergeOne t acc (c :: rest) =
      ((mergeOne t acc rest).1, c :: (mergeOne t acc rest).2.1,
        (mergeOne t acc rest).2.2) := by
  rw [mergeOne, if_neg h]

theorem mergePass_nil (t : ℝ) : mergePass t [] = ([], false) := by
  rw [mergePass]

theorem mergePass_cons (t : ℝ) (c : List (ℝ × ℝ)) (rest : List (List (ℝ × ℝ))) :
    mergePass t (c :: rest) =
      ((mergeOne t c rest).1 :: (mergePass t (mergeOne t c rest).2.1).1,
        (mergeOne t c rest).2.2 || (mergePass t (mergeOne t c rest).2.1).2) := by
  rw [mergePass]

theorem clusterLoop_base {t : ℝ} {cs : List (List (ℝ × ℝ))} (h : cs.length ≤ 1) :
    clusterLoop t cs = cs := by
  rw [clusterLoop, if_pos h]

theorem clusterLoop_continue {t : ℝ} {cs : List (List (ℝ × ℝ))} (h : ¬ cs.length ≤ 1)
    (h2 : (mergePass t cs).2 = true) :
    clusterLoop t cs = clusterLoop t (mergePass t cs).1 := by
  rw [clusterLoop, if_neg h]
  simp only [h2, if_pos]

theorem clusterLoop_stop {t : ℝ} {cs : List (List (ℝ × ℝ))} (h : ¬ cs.length ≤ 1)
    (h2 : ¬ (mergePass t cs).2 = true) :
    clusterLoop t cs = (mergePass t cs).1 := by
  rw [clusterLoop, if_neg h]
  simp only [h2, if_neg, if_false, Bool.false_eq_true]

theorem centroid_single (q : ℝ × ℝ) : centroid [q] = q := by
  simp [centroid]

/-- First clustering pass on the antimeridian fixture: the two points at
longitudes ±179.9 merge (22.24 km < threshold 30 km) and their raw-longitude
centroid jumps to the prime meridian, landing 11.12 km from the third point. -/
theorem cluster_P0 :
    cluster_nearby_coordinates [((0:ℝ), 179.9), (0, -179.9), (0, 0.1)] 30 =
      [(0, 0), (0, 0.1)] := by
  have hfar : ¬ oLt (pairMin [((0:ℝ), 179.9), (0, -179.9)] [[(0, 0.1)]].head!) 30 := by
    simp only [List.head!]
    rw [pairMin_pair]
    simp only [oLt]
    rw [min_lt_iff]
    rintro (h | h)
    · exact hav_P1R_ge h
    · exact hav_P2R_ge h
  have hm1 : mergeOne 30 [((0:ℝ), 179.9)] [[(0, -179.9)], [(0, 0.1)]] =
      ([((0:ℝ), 179.9), (0, -179.9)], [[(0, 0.1)]], true) := by
    rw [mergeOne_cons_merge (by rw [pairMin_single]; exact hav_P1P2_lt)]
    simp only [List.singleton_append]
    rw [mergeOne_cons_skip (by simpa using hfar), mergeOne_nil]
  have hp1 : mergePass 30 [[((0:ℝ), 179.9)], [(0, -179.9)], [(0, 0.1)]] =
      ([[((0:ℝ), 179.9), (0, -179.9)], [(0, 0.1)]], true) := by
    rw [mergePass_cons, hm1]
    simp only
    rw [mergePass_cons, mergeOne_nil]
    simp only
    rw [mergePass_nil]
    simp
  have hm2 : mergeOne 30 [((0:ℝ), 179.9), (0, -179.9)] [[(0, 0.1)]] =
      ([((0:ℝ), 179.9), (0, -179.9)], [[(0, 0.1)]], false) := by
    rw [mergeOne_cons_skip (by simpa using hfar), mergeOne_nil]
  have hp2 : mergePass 30 [[((0:ℝ), 179.9), (0, -179.9)], [(0, 0.1)]] =
      ([[((0:ℝ), 179.9), (0, -179.9)], [(0, 0.1)]], false) := by
    rw [mergePass_cons, hm2]
    simp only
    rw [mergePass_cons, mergeOne_nil]
    simp only
    rw [mergePass_nil]
    simp
  rw [cluster_nearby_coordinates, if_neg (by norm_num)]
  simp only [List.map_cons, List.map_nil]
  rw [clusterLoop_continue (by norm_num) (by rw [hp1])]
  rw [hp1]
  simp only
  rw [clusterLoop_stop (by norm_num) (by rw [hp2]; simp)]
  rw [hp2]
  simp only [List.map_cons, List.map_nil, centroid_single]
  rw [show centroid [((0:ℝ), 179.9), (0, -179.9)] = (0, 0) by
    simp [centroid]]

/-- Clustering the first pass's output again merges its two centroids. -/
theorem cluster_P0_twice :
    cluster_nearby_coordinates [((0:ℝ), 0), (0, 0.1)] 30 = [(0, 0.05)] := by
  have hm : mergeOne 30 [((0:ℝ), 0)] [[(0, 0.1)]] =
      ([((0:ℝ), 0), (0, 0.1)], [], true) := by
    rw [mergeOne_cons_merge (by rw [pairMin_single]; exact hav_OR_lt), mergeOne_nil]
    simp
  have hp : mergePass 30 [[((0:ℝ), 0)], [(0, 0.1)]] =
      ([[((0:ℝ), 0), (0, 0.1)]], true) := by
    rw [mergePass_cons, hm]
    simp only
    rw [mergePass_nil]
    simp
  rw [cluster_nearby_coordinates, if_neg (by norm_num)]
  simp only [List.map_cons, List.map_nil]
  rw [clusterLoop_continue (by norm_num) (by rw [hp])]
  rw [hp]
  simp only
  rw [clusterLoop_base (by norm_num)]
  simp only [List.map_cons, List.map_nil]
  rw [show centroid [((0:ℝ), 0), (0, 0.1)] = (0, 0.05) by
    simp [centroid]
    norm_num]

theorem mergeOne_no_merge (t : ℝ) : ∀ (cs : List (List (ℝ × ℝ))) (acc : List (ℝ × ℝ)),
    (∀ c ∈ cs, ¬ oLt (pairMin acc c) t) → mergeOne t acc cs = (acc, cs, false) := by
  intro cs
  induction cs with
  | nil => intro acc _; rw [mergeOne_nil]
  | cons c rest ih =>
    intro acc h
    rw [mergeOne_cons_skip (h c (List.mem_cons_self c rest))]
    rw [ih acc fun c' hc' => h c' (List.mem_cons_of_mem c hc')]

theorem mergePass_no_merge (t : ℝ) : ∀ (cs : List (List (ℝ × ℝ))),
    cs.Pairwise (fun X Y => ¬ oLt (pairMin X Y) t) → mergePass t cs = (cs, false) := by
  intro cs
  induction cs with
  | nil => intro _; rw [mergePass_nil]
  | cons c rest ih =>
    intro h
    rw [mergePass_cons, mergeOne_no_merge t rest c (List.pairwise_cons.mp h).1]
    simp only
    rw [ih (List.pairwise_cons.mp h).2]
    simp

/-- A list of points that are pairwise at least the threshold apart is a fixed
point of `cluster_nearby_coordinates`. -/
theorem cluster_fixed (t : ℝ) : ∀ (Q : List (ℝ × ℝ)),
    Q.Pairwise (fun a b => ¬ haversine_distance a b < t) →
    cluster_nearby_coordinates Q t = Q := by
  intro Q h
  match Q with
  | [] => rw [cluster_nearby_coordinates]; simp
  | [q] => rw [cluster_nearby_coordinates]; simp
  | q1 :: q2 :: qs =>
    rw [cluster_nearby_coordinates, if_neg (by simp)]
    have hpw : ((q1 :: q2 :: qs).map fun c => [c]).Pairwise
        (fun X Y => ¬ oLt (pairMin X Y) t) := by
      rw [List.pairwise_map]
      refine h.imp ?_
      intro a b hab
      rw [pairMin_single]
      simpa [oLt] using hab
    rw [clusterLoop_stop (by simp) (by rw [mergePass_no_merge t _ hpw]; simp)]
    rw [mergePass_no_merge t _ hpw]
    simp only [List.map_map]
    rw [show (centroid ∘ fun c : ℝ × ℝ => [c]) = id from funext fun q => centroid_single q]
    simp

/-! ## C5: clustering idempotence -/

/-- C5 counterexample: for the three equatorial points at longitudes 179.9,
−179.9 and 0.1 with threshold 30 km, a second application of
`cluster_nearby_coordinates` changes the result (the antimeridian pair's
centroid lands near the third point), so clustering is not idempotent. -/
theorem C5_cluster_counterexample :
    cluster_nearby_coordinates
        (cluster_nearby_coordinates [((0:ℝ), 179.9), (0, -179.9), (0, 0.1)] 30) 30 ≠
      cluster_nearby_coordinates [((0:ℝ), 179.9), (0, -179.9), (0, 0.1)] 30 := by
  rw [cluster_P0, cluster_P0_twice]
  intro h
  exact absurd (congrArg List.length h) (by simp)

/-- C5 (amended): clustering is idempotent whenever the centroids it returns
are themselves pairwise at least the threshold apart (in particular for empty
and singleton inputs); in general a second application can merge centroids
that moved closer than the threshold, as the counterexample shows, so
unrestricted idempotence fails. -/
theorem C5_cluster_idempotent_amended (P : List (ℝ × ℝ)) (t : ℝ)
    (h : (cluster_nearby_coordinates P t).Pairwise
      fun a b => ¬ haversine_distance a b < t) :
    cluster_nearby_coordinates (cluster_nearby_coordinates P t) t =
      cluster_nearby_coordinates P t :=
  cluster_fixed t _ h

/-- C5 witness: the amended theorem applied to a singleton input. -/
theorem C5_cluster_idempotent_witness :
    cluster_nearby_coordinates (cluster_nearby_coordinates [((0:ℝ), 0)] 1) 1 =
      cluster_nearby_coordinates [((0:ℝ), 0)] 1 :=
  C5_cluster_idempotent_amended [((0:ℝ), 0)] 1 (by
    rw [show cluster_nearby_coordinates [((0:ℝ), 0)] 1 = [((0:ℝ), 0)] from by
      rw [cluster_nearby_coordinates]; simp]
    simp)

end MSA

namespace MSA

/-! ## Geofence helpers -/

theorem hav_self (c : ℝ × ℝ) : haversine_distance c c = 0 := by
  simp only [haversine_distance, radians]
  rw [show (c.1 - c.1) * Real.pi / 180 / 2 = 0 by ring,
    show (c.2 - c.2) * Real.pi / 180 / 2 = 0 by ring, Real.sin_zero]
  norm_num

theorem atan2_zero_zero : atan2 0 0 = 0 := by
  rw [atan2]
  norm_num

theorem pymod_360_360 : pymod ((0:ℝ) + 360) 360 = 0 := by
  rw [pymod]
  norm_num

/-- The bearing from a point to itself: `atan2(0, 0) = 0`, so the azimuth is
`(0 + 360) % 360 = 0`. -/
theorem bearing_self (c : ℝ × ℝ) : calculate_bearing c c = 0 := by
  simp only [calculate_bearing, radians, degreesR]
  rw [show (c.2 - c.2) * Real.pi / 180 = 0 by ring, Real.sin_zero, Real.cos_zero]
  rw [show Real.cos (c.1 * Real.pi / 180) * Real.sin (c.1 * Real.pi / 180) -
      Real.sin (c.1 * Real.pi / 180) * Real.cos (c.1 * Real.pi / 180) * 1 = 0 by ring]
  rw [show (0:ℝ) * Real.cos (c.1 * Real.pi / 180) = 0 by ring, atan2_zero_zero]
  rw [show (0:ℝ) * 180 / Real.pi = 0 by ring]
  exact pymod_360_360

theorem round2R_zero : round2R 0 = 0 := by
  rw [round2R, rintHE_R]
  norm_num [Int.fract]

theorem round2R_41325 : round2R (1653 / 4) = 1653 / 4 := by
  rw [round2R, rintHE_R]
  rw [show (1653 / 4 : ℝ) * 100 = 41325 by norm_num]
  rw [show Int.fract (41325 : ℝ) = 0 by
    rw [show ((41325 : ℝ)) = ((41325 : ℤ) : ℝ) by norm_num, Int.fract_intCast]]
  norm_num

/-- The `try/except` polygon path when both Shapely computations raise:
`is_in` is `False`, the distance is infinite, and the ladder bottoms out at
`('SAFE', 0.5)`. -/
theorem polygon_failure_eval (vessel_lat vessel_lon buffer_km : ℝ) (w : WarningData)
    (g : PolygonOracle) (c0 c1 : ℝ × ℝ) (cs : List (ℝ × ℝ))
    (hc : w.coordinates.getD [] = c0 :: c1 :: cs)
    (hp : ¬ w.wtype.getD "point" = "point")
    (hg1 : g.contains = none) (hg2 : g.distDeg = none) :
    (detect_zone_threat vessel_lat vessel_lon w g buffer_km).threat_level = .SAFE ∧
    (detect_zone_threat vessel_lat vessel_lon w g buffer_km).certainty = 0.5 ∧
    ¬ (detect_zone_threat vessel_lat vessel_lon w g buffer_km).is_in_zone ∧
    (detect_zone_threat vessel_lat vessel_lon w g buffer_km).distance_km = none := by
  have hcond : ¬ (w.wtype.getD "point" = "point" ∨ (c0 :: c1 :: cs).length = 1) := by
    rintro (h | h)
    · exact hp h
    · simp at h
  simp only [detect_zone_threat, hc, if_neg hcond]
  simp [is_point_in_polygon, point_to_polygon_distance, hg1, hg2, oLt]

/-! ## C1: the point-hazard threat ladder -/

/-- C1: for every vessel position, point hazard (warning of type `point` or
with exactly one coordinate) and `buffer_km > 0`, `detect_zone_threat` follows
the ladder `< 0.25×buffer → Critical(0.95)`, `< 0.5× → High(0.9)`,
`< 1× → Medium(0.85)`, `< 2× → Low(0.7)`, `< 5× → Low(0.5)`, else `Safe(0)`;
`is_in_zone ↔ distance < 0.5×buffer`; and the severity of the ladder's level
is monotonically non-increasing in the distance. -/
theorem C1_point_threat_ladder (vessel_lat vessel_lon buffer_km : ℝ) (w : WarningData)
    (g : PolygonOracle) (c0 : ℝ × ℝ) (cs : List (ℝ × ℝ)) (d : ℝ) (r : ThreatResult)
    (hb : 0 < buffer_km)
    (hc : w.coordinates.getD [] = c0 :: cs)
    (hp : w.wtype.getD "point" = "point" ∨ (c0 :: cs).length = 1)
    (hd : d = haversine_distance (vessel_lat, vessel_lon) c0)
    (hr : r = detect_zone_threat vessel_lat vessel_lon w g buffer_km) :
    ((d < buffer_km * 0.25 → r.threat_level = .CRITICAL ∧ r.certainty = 0.95) ∧
     (buffer_km * 0.25 ≤ d → d < buffer_km * 0.5 →
       r.threat_level = .HIGH ∧ r.certainty = 0.9) ∧
     (buffer_km * 0.5 ≤ d → d < buffer_km → r.threat_level = .MEDIUM ∧ r.certainty = 0.85) ∧
     (buffer_km ≤ d → d < buffer_km * 2 → r.threat_level = .LOW ∧ r.certainty = 0.7) ∧
     (buffer_km * 2 ≤ d → d < buffer_km * 5 → r.threat_level = .LOW ∧ r.certainty = 0.5) ∧
     (buffer_km * 5 ≤ d → r.threat_level = .SAFE ∧ r.certainty = 0) ∧
     (r.is_in_zone ↔ d < buffer_km * 0.5)) ∧
    (∀ d1 d2 : ℝ, d1 ≤ d2 →
      sevRank (applyThreatMap d2 (threat_map buffer_km)).1 ≤
        sevRank (applyThreatMap d1 (threat_map buffer_km)).1) := by
  constructor
  · subst hr hd
    simp only [detect_zone_threat, hc, if_pos hp]
    simp only [threat_map, applyThreatMap, ltThresh]
    set d := haversine_distance (vessel_lat, vessel_lon) c0 with hdd
    constructor
    · intro h
      rw [if_pos h]
      exact ⟨rfl, rfl⟩
    constructor
    · intro h1 h2
      rw [if_neg (by linarith), if_pos h2]
      exact ⟨rfl, rfl⟩
    constructor
    · intro h1 h2
      rw [if_neg (by linarith), if_neg (by linarith), if_pos h2]
      exact ⟨rfl, rfl⟩
    constructor
    · intro h1 h2
      rw [if_neg (by linarith), if_neg (by linarith), if_neg (by linarith), if_pos h2]
      exact ⟨rfl, rfl⟩
    constructor
    · intro h1 h2
      rw [if_neg (by linarith), if_neg (by linarith), if_neg (by linarith),
        if_neg (by linarith), if_pos h2]
      exact ⟨rfl, rfl⟩
    constructor
    · intro h1
      rw [if_neg (by linarith), if_neg (by linarith), if_neg (by linarith),
        if_neg (by linarith), if_neg (by linarith), if_pos trivial]
      exact ⟨rfl, by norm_num⟩
    · trivial
  · intro d1 d2 h12
    simp only [threat_map, applyThreatMap, ltThresh]
    split_ifs <;> simp [sevRank] <;> linarith

/-- C1 witness: the `is_in_zone` characterization at a concrete instance
(vessel at the origin, the fixture point warning, buffer 5 km). -/
theorem C1_point_threat_ladder_witness :
    ((detect_zone_threat 0 0 wFix gFix 5).is_in_zone ↔
      haversine_distance ((0:ℝ), 0) (0, 100) < 5 * 0.5) :=
  (C1_point_threat_ladder 0 0 5 wFix gFix (0, 100) [] _ _ (by norm_num) (by simp [wFix])
    (Or.inl (by simp [wFix])) rfl rfl).1.2.2.2.2.2.2

/-! ## C9: the empty-coordinates early return -/

/-- C9: a warning whose coordinate list is empty yields threat level `Safe`
with infinite distance (`distance_km = none` models `float('inf')`),
`is_in_zone` false, and certainty 1.0 — a fully-confident "safe", not a
zero-certainty "unknown". -/
theorem C9_empty_coordinates (vessel_lat vessel_lon buffer_km : ℝ) (w : WarningData)
    (g : PolygonOracle) (hc : w.coordinates.getD [] = []) :
    (detect_zone_threat vessel_lat vessel_lon w g buffer_km).threat_level = .SAFE ∧
    (detect_zone_threat vessel_lat vessel_lon w g buffer_km).distance_km = none ∧
    ¬ (detect_zone_threat vessel_lat vessel_lon w g buffer_km).is_in_zone ∧
    (detect_zone_threat vessel_lat vessel_lon w g buffer_km).certainty = 1 := by
  simp [detect_zone_threat, hc]
  norm_num

/-- C9 witness: the empty-geometry warning record. -/
theorem C9_empty_coordinates_witness :
    (detect_zone_threat 0 0 wEmpty gFix 5).threat_level = .SAFE ∧
    (detect_zone_threat 0 0 wEmpty gFix 5).distance_km = none ∧
    ¬ (detect_zone_threat 0 0 wEmpty gFix 5).is_in_zone ∧
    (detect_zone_threat 0 0 wEmpty gFix 5).certainty = 1 :=
  C9_empty_coordinates 0 0 5 wEmpty gFix rfl

/-! ## C6: polygon geometry failure -/

/-- C6 counterexample: when both Shapely computations fail on a malformed
two-vertex polygon, the engine returns `Safe` with certainty 0.5 — not the
certainty 0.0 the claim states. -/
theorem C6_polygon_counterexample :
    (detect_zone_threat 0 0 wPoly gFix 5).threat_level = .SAFE ∧
    (detect_zone_threat 0 0 wPoly gFix 5).certainty = 0.5 ∧
    (detect_zone_threat 0 0 wPoly gFix 5).certainty ≠ 0 := by
  have h := polygon_failure_eval 0 0 5 wPoly gFix (0, 1) (0, 2) [] (by simp [wPoly])
    (by simp [wPoly]) rfl rfl
  refine ⟨h.1, h.2.1, ?_⟩
  rw [h.2.1]
  norm_num

/-- C6 (amended): for every polygon warning whose geometry computations fail
(the repair included), `detect_zone_threat` returns threat level `Safe` with
certainty 0.5 — the same certainty as the beyond-ladder "safe" band, not the
distinguishable 0.0 the spec describes — with `is_in_zone` false and infinite
distance, and no exception propagates (the embedding is total). -/
theorem C6_polygon_failure_amended (vessel_lat vessel_lon buffer_km : ℝ) (w : WarningData)
    (g : PolygonOracle) (c0 c1 : ℝ × ℝ) (cs : List (ℝ × ℝ))
    (hc : w.coordinates.getD [] = c0 :: c1 :: cs)
    (hp : ¬ w.wtype.getD "point" = "point")
    (hg1 : g.contains = none) (hg2 : g.distDeg = none) :
    (detect_zone_threat vessel_lat vessel_lon w g buffer_km).threat_level = .SAFE ∧
    (detect_zone_threat vessel_lat vessel_lon w g buffer_km).certainty = 0.5 ∧
    ¬ (detect_zone_threat vessel_lat vessel_lon w g buffer_km).is_in_zone ∧
    (detect_zone_threat vessel_lat vessel_lon w g buffer_km).distance_km = none :=
  polygon_failure_eval vessel_lat vessel_lon buffer_km w g c0 c1 cs hc hp hg1 hg2

/-- C6 witness: the amended theorem at the concrete failing fixture. -/
theorem C6_polygon_failure_witness :
    (detect_zone_threat 1 2 wPoly gFix 7).threat_level = .SAFE ∧
    (detect_zone_threat 1 2 wPoly gFix 7).certainty = 0.5 ∧
    ¬ (detect_zone_threat 1 2 wPoly gFix 7).is_in_zone ∧
    (detect_zone_threat 1 2 wPoly gFix 7).distance_km = none :=
  C6_polygon_failure_amended 1 2 7 wPoly gFix (0, 1) (0, 2) [] (by simp [wPoly])
    (by simp [wPoly]) rfl rfl

end MSA

namespace MSA

/-! ## Risk-scorer evaluation helpers -/

theorem detectFix_level :
    (detect_zone_threat vFix.lat vFix.lon wFix gFix 5.0).threat_level = .CRITICAL := by
  have hc : wFix.coordinates.getD [] = [((0:ℝ), 100)] := by simp [wFix]
  simp only [detect_zone_threat, hc]
  rw [if_pos (Or.inl (by simp [wFix]))]
  simp only
  rw [show (vFix.lat, vFix.lon) = ((0:ℝ), (100:ℝ)) by simp [vFix]]
  rw [hav_self]
  simp only [threat_map, applyThreatMap, ltThresh]
  rw [if_pos (by norm_num : (0:ℝ) < 5.0 * 0.25)]

theorem detectFix_cert :
    (detect_zone_threat vFix.lat vFix.lon wFix gFix 5.0).certainty = 0.95 := by
  have hc : wFix.coordinates.getD [] = [((0:ℝ), 100)] := by simp [wFix]
  simp only [detect_zone_threat, hc]
  rw [if_pos (Or.inl (by simp [wFix]))]
  simp only
  rw [show (vFix.lat, vFix.lon) = ((0:ℝ), (100:ℝ)) by simp [vFix]]
  rw [hav_self]
  simp only [threat_map, applyThreatMap, ltThresh]
  rw [if_pos (by norm_num : (0:ℝ) < 5.0 * 0.25)]

theorem detectFix_dist :
    (detect_zone_threat vFix.lat vFix.lon wFix gFix 5.0).distance_km = some 0 := by
  have hc : wFix.coordinates.getD [] = [((0:ℝ), 100)] := by simp [wFix]
  simp only [detect_zone_threat, hc]
  rw [if_pos (Or.inl (by simp [wFix]))]
  simp only
  rw [show (vFix.lat, vFix.lon) = ((0:ℝ), (100:ℝ)) by simp [vFix]]
  rw [hav_self, round2R_zero]

section RiskTheorems

attribute [local instance] Classical.propDecidable

/-- The fixture evaluates to a `CRITICAL` hazard scored
`(100 × 1.4 × 2 × 1.5 × 1 + 0.3 × 1 × 50) × 0.95 = 413.25 = 1653/4` —
unclipped, well above 100. -/
theorem perWarningFix (idx : ℕ) :
    perWarning vFix (idx, wFix, gFix) =
      some ({ assessment := detect_zone_threat vFix.lat vFix.lon wFix gFix 5.0,
              warning_title := "射擊", warning_type := "point", warning_id := 7,
              final_score := 1653 / 4, bearing_to_warning := some 0 }, 1653 / 4) := by
  have hc : wFix.coordinates.getD [] = [((0:ℝ), 100)] := by simp [wFix]
  simp only [perWarning, hc]
  rw [if_neg (by rw [detectFix_level]; simp)]
  rw [detectFix_level, detectFix_cert, detectFix_dist]
  simp only [List.length_cons, List.length_nil]
  rw [if_neg (by norm_num : ¬ (0 + 1 > 1))]
  rw [show (vFix.lat, vFix.lon) = ((0:ℝ), (100:ℝ)) by simp [vFix], bearing_self]
  rw [show vFix.heading.getD 0 = 0 by simp [vFix]]
  rw [show strToLower (wFix.title.getD "") = "射擊" by simp [wFix]; decide]
  rw [if_pos (by decide : strContains "射擊" "射擊" = true)]
  rw [show (type_factors.lookup (vFix.vtype.getD "GENERAL")).getD 1.0 = 1.4 by
    simp [vFix, type_factors, List.lookup]]
  rw [show vFix.draft_m.getD 0 = 15 by simp [vFix]]
  rw [if_pos (by norm_num : (0:ℝ) < 15)]
  rw [show wFix.title.getD "Unknown" = "射擊" by simp [wFix]]
  rw [show wFix.wtype.getD "point" = "point" by simp [wFix]]
  rw [show wFix.wid.getD idx = 7 by simp [wFix]]
  rw [show threat_scores .CRITICAL = 100 from rfl]
  norm_num
  exact round2R_41325

/-- The claim's clipped-then-scaled formula gives 95 on the same fixture. -/
theorem claimedFix : claimed_per_hazard_score vFix wFix gFix = 95 := by
  have hc : wFix.coordinates.getD [] = [((0:ℝ), 100)] := by simp [wFix]
  simp only [claimed_per_hazard_score, hc]
  rw [detectFix_level, detectFix_cert, detectFix_dist]
  simp only [List.length_cons, List.length_nil]
  rw [if_neg (by norm_num : ¬ (0 + 1 > 1))]
  rw [show (vFix.lat, vFix.lon) = ((0:ℝ), (100:ℝ)) by simp [vFix], bearing_self]
  rw [show vFix.heading.getD 0 = 0 by simp [vFix]]
  rw [show strToLower (wFix.title.getD "") = "射擊" by simp [wFix]; decide]
  rw [if_pos (by decide : strContains "射擊" "射擊" = true)]
  rw [show (type_factors.lookup (vFix.vtype.getD "GENERAL")).getD 1.0 = 1.4 by
    simp [vFix, type_factors, List.lookup]]
  rw [show vFix.draft_m.getD 0 = 15 by simp [vFix]]
  rw [if_pos (by norm_num : (0:ℝ) < 15)]
  rw [show threat_scores .CRITICAL = 100 from rfl]
  norm_num

theorem scoredFix :
    ([(wFix, gFix)].enum).filterMap (perWarning vFix) =
      [({ assessment := detect_zone_threat vFix.lat vFix.lon wFix gFix 5.0,
          warning_title := "射擊", warning_type := "point", warning_id := 7,
          final_score := 1653 / 4, bearing_to_warning := some 0 }, (1653 / 4 : ℝ))] := by
  rw [show ([(wFix, gFix)].enum) = [(0, (wFix, gFix))] from rfl]
  rw [List.filterMap_cons, perWarningFix 0, List.filterMap_nil]

theorem assessFix_overall :
    (assess_vessel_threat vFix [(wFix, gFix)]).overall_risk_score = 100 := by
  simp only [assess_vessel_threat, scoredFix]
  simp only [List.map_cons, List.map_nil, List.sum_cons, List.sum_nil, List.length_cons,
    List.length_nil]
  rw [if_pos (by norm_num : 0 < 0 + 1)]
  rw [show min (100:ℝ) ((1653 / 4 + 0) / ((0 + 1 : ℕ) : ℝ)) = 100 by
    rw [min_eq_left (by push_cast; norm_num)]]
  rw [round2R, rintHE_R]
  rw [show (100:ℝ) * 100 = 10000 by norm_num]
  rw [show Int.fract (10000 : ℝ) = 0 by
    rw [show ((10000 : ℝ)) = ((10000 : ℤ) : ℝ) by norm_num, Int.fract_intCast]]
  norm_num

theorem warningCount6 :
    5 < (assess_vessel_threat vFix
      [(wFix, gFix), (wFix, gFix), (wFix, gFix), (wFix, gFix), (wFix, gFix),
        (wFix, gFix)]).warning_count := by
  simp only [assess_vessel_threat]
  rw [show ([(wFix, gFix), (wFix, gFix), (wFix, gFix), (wFix, gFix), (wFix, gFix),
      (wFix, gFix)].enum) =
    [(0, (wFix, gFix)), (1, (wFix, gFix)), (2, (wFix, gFix)), (3, (wFix, gFix)),
      (4, (wFix, gFix)), (5, (wFix, gFix))] from rfl]
  simp only [List.filterMap_cons, List.filterMap_nil, perWarningFix]
  simp

/-! ## C2: the per-hazard score -/

/-- C2 counterexample: on the fixture (deep-draft passenger vessel at a
gunnery point hazard, heading straight at it) the code's per-hazard score is
413.25 = 1653/4, while the claim's clip-to-[0,100]-then-scale formula gives
95 — per-hazard scores are not clipped. -/
theorem C2_per_hazard_counterexample :
    (perWarning vFix (0, wFix, gFix)).map Prod.snd = some (1653 / 4) ∧
    claimed_per_hazard_score vFix wFix gFix = 95 ∧
    (1653 / 4 : ℝ) ≠ 95 := by
  refine ⟨?_, claimedFix, by norm_num⟩
  rw [perWarningFix 0]
  rfl

/-- C2 (amended): for every non-Safe (vessel, hazard) pair the accumulated
per-hazard score equals
`(base × vessel_type_factor × draft_factor × hazard_type_multiplier ×
distance_penalty + approach_bonus) × certainty`, where
`approach_bonus = 0.3 × max(0, 1 − min(|heading − bearing|, 360 − |heading −
bearing|)/180) × 50` (the heading difference wraps around 360°); the score is
not clipped to [0,100] (only the aggregate is), and the stored `final_score`
is this value rounded to two decimals. -/
theorem C2_per_hazard_amended (v : VesselData) (idx : ℕ) (w : WarningData)
    (g : PolygonOracle) (c0 : ℝ × ℝ) (cs : List (ℝ × ℝ)) (e : ThreatEntry) (raw : ℝ)
    (hc : w.coordinates.getD [] = c0 :: cs)
    (h : perWarning v (idx, w, g) = some (e, raw)) :
    raw =
      (threat_scores (detect_zone_threat v.lat v.lon w g 5.0).threat_level *
        ((type_factors.lookup (v.vtype.getD "GENERAL")).getD 1.0) *
        (if 0 < v.draft_m.getD 0 then 1 + v.draft_m.getD 0 / 15 else 1) *
        (if strContains (strToLower (w.title.getD "")) "射擊" then 1.5
         else if strContains (strToLower (w.title.getD "")) "礙航" then 1.3
         else if strContains (strToLower (w.title.getD "")) "颶風" ||
           strContains (strToLower (w.title.getD "")) "台風" then 1.2 else 1.0) *
        (match (detect_zone_threat v.lat v.lon w g 5.0).distance_km with
         | none => 0
         | some dkm => max 0 (1 - dkm / 20)) +
       0.3 * max 0 (1 -
          min (|v.heading.getD 0 - calculate_bearing (v.lat, v.lon)
              (if (c0 :: cs).length > 1 then centroid (c0 :: cs) else c0)|)
            (360 - |v.heading.getD 0 - calculate_bearing (v.lat, v.lon)
              (if (c0 :: cs).length > 1 then centroid (c0 :: cs) else c0)|) / 180) * 50) *
        (detect_zone_threat v.lat v.lon w g 5.0).certainty ∧
    e.final_score = round2R raw := by
  rw [perWarning] at h
  simp only [hc] at h
  by_cases hsafe : (detect_zone_threat v.lat v.lon w g 5.0).threat_level = .SAFE
  · rw [if_pos hsafe] at h
    exact absurd h (by simp)
  · rw [if_neg hsafe] at h
    simp only [Option.some.injEq, Prod.mk.injEq] at h
    obtain ⟨he, hraw⟩ := h
    constructor
    · rw [← hraw]
      ring
    · rw [← he, ← hraw]

/-- C2 witness: the amended theorem at the fixture; the stored score is the
rounded raw score. -/
theorem C2_per_hazard_witness :
    ({ assessment := detect_zone_threat vFix.lat vFix.lon wFix gFix 5.0,
       warning_title := "射擊", warning_type := "point", warning_id := 7,
       final_score := 1653 / 4, bearing_to_warning := some 0 } : ThreatEntry).final_score =
      round2R (1653 / 4) :=
  (C2_per_hazard_amended vFix 0 wFix gFix (0, 100) [] _ _ (by simp [wFix])
    (perWarningFix 0)).2

/-! ## C3: the per-vessel aggregation -/

/-- C3 counterexample: with the single fixture hazard the mean of the
per-hazard scores is 413.25 = 1653/4, but the profile's overall score is
`min(100, mean) = 100` — the claim omits the clamp. -/
theorem C3_overall_counterexample :
    (assess_vessel_threat vFix [(wFix, gFix)]).overall_risk_score = 100 ∧
    ((([(wFix, gFix)].enum).filterMap (perWarning vFix)).map Prod.snd).sum /
      ((([(wFix, gFix)].enum).filterMap (perWarning vFix)).length : ℝ) = 1653 / 4 ∧
    (100 : ℝ) ≠ 1653 / 4 := by
  refine ⟨assessFix_overall, ?_, by norm_num⟩
  rw [scoredFix]
  simp

/-- C3 (amended): `overall_risk_score` equals `min(100, mean of the per-hazard
scores over non-Safe hazards)` (0 when there are none) rounded to two
decimals; the level bands `≥85 Critical / ≥65 High / ≥45 Medium / ≥25 Low /
else Safe` are applied to the unrounded clamped value; and `action_required`
holds exactly for levels Critical and High. -/
theorem C3_overall_aggregation_amended (v : VesselData)
    (ws : List (WarningData × PolygonOracle)) :
    (assess_vessel_threat v ws).overall_risk_score =
      round2R (if 0 < ((ws.enum).filterMap (perWarning v)).length then
        min 100 ((((ws.enum).filterMap (perWarning v)).map Prod.snd).sum /
          (((ws.enum).filterMap (perWarning v)).length : ℝ)) else 0) ∧
    ((assess_vessel_threat v ws).action_required ↔
      ((assess_vessel_threat v ws).threat_level = .CRITICAL ∨
       (assess_vessel_threat v ws).threat_level = .HIGH)) ∧
    (((ws.enum).filterMap (perWarning v)) = [] →
      (assess_vessel_threat v ws).threat_level = .SAFE ∧
      (assess_vessel_threat v ws).overall_risk_score = 0) ∧
    (∀ S : ℝ,
      S = (if 0 < ((ws.enum).filterMap (perWarning v)).length then
        min 100 ((((ws.enum).filterMap (perWarning v)).map Prod.snd).sum /
          (((ws.enum).filterMap (perWarning v)).length : ℝ)) else 0) →
      (85 ≤ S → (assess_vessel_threat v ws).threat_level = .CRITICAL) ∧
      (65 ≤ S → S < 85 → (assess_vessel_threat v ws).threat_level = .HIGH) ∧
      (45 ≤ S → S < 65 → (assess_vessel_threat v ws).threat_level = .MEDIUM) ∧
      (25 ≤ S → S < 45 → (assess_vessel_threat v ws).threat_level = .LOW) ∧
      (S < 25 → (assess_vessel_threat v ws).threat_level = .SAFE)) := by
  refine ⟨?_, ?_, ?_, ?_⟩
  · simp only [assess_vessel_threat]
  · simp only [assess_vessel_threat]
  · intro h
    simp only [assess_vessel_threat, h]
    norm_num [round2R_zero]
  · intro S hS
    simp only [assess_vessel_threat, ← hS]
    refine ⟨?_, ?_, ?_, ?_, ?_⟩
    · intro h1
      rw [if_pos h1]
    · intro h1 h2
      rw [if_neg (by linarith), if_pos h1]
    · intro h1 h2
      rw [if_neg (by linarith), if_neg (by linarith), if_pos h1]
    · intro h1 h2
      rw [if_neg (by linarith), if_neg (by linarith), if_neg (by linarith), if_pos h1]
    · intro h1
      rw [if_neg (by linarith), if_neg (by linarith), if_neg (by linarith),
        if_neg (by linarith)]

/-! ## C10: top-5 truncation of nearby warnings -/

/-- C10: `nearby_warnings` is the 5 highest-scoring non-Safe assessments
(the stable descending sort truncated to 5, hence sorted by non-increasing
`final_score` and of length at most 5), while `warning_count` is the total
number of non-Safe assessments, which can exceed 5 (witnessed by a fleet
fixture with six hazards). -/
theorem C10_top5_truncation (v : VesselData) (ws : List (WarningData × PolygonOracle)) :
    (assess_vessel_threat v ws).nearby_warnings.length ≤ 5 ∧
    (assess_vessel_threat v ws).warning_count =
      ((ws.enum).filterMap (perWarning v)).length ∧
    List.Pairwise (fun a b => b.final_score ≤ a.final_score)
      (assess_vessel_threat v ws).nearby_warnings ∧
    (assess_vessel_threat v ws).nearby_warnings =
      ((((ws.enum).filterMap (perWarning v)).map Prod.fst).mergeSort
        (fun a b => decide (b.final_score ≤ a.final_score))).take 5 ∧
    ∃ (v' : VesselData) (ws' : List (WarningData × PolygonOracle)),
      5 < (assess_vessel_threat v' ws').warning_count := by
  refine ⟨?_, ?_, ?_, ?_, ?_⟩
  · simp only [assess_vessel_threat]
    simp [List.length_take]
  · simp only [assess_vessel_threat]
    simp
  · simp only [assess_vessel_threat]
    have hs : List.Pairwise (fun a b : ThreatEntry =>
        (decide (b.final_score ≤ a.final_score)) = true)
        ((((ws.enum).filterMap (perWarning v)).map Prod.fst).mergeSort
          (fun a b => decide (b.final_score ≤ a.final_score))) := by
      refine List.sorted_mergeSort ?_ ?_ _
      · intro a b c hab hbc
        rw [decide_eq_true_eq] at *
        exact le_trans hbc hab
      · intro a b
        rw [Bool.or_eq_true, decide_eq_true_eq, decide_eq_true_eq]
        exact le_total b.final_score a.final_score
    have := (hs.sublist (List.take_sublist 5 _)).imp
      (fun {a b} h => by rwa [decide_eq_true_eq] at h)
    simpa using this
  · simp only [assess_vessel_threat]
  · exact ⟨vFix, _, warningCount6⟩

end RiskTheorems

end MSA
